import Mathlib

/-!
Verification of the incident tracker of the well-pump-server repository.

The subject is the event de-duplication and lifecycle engine implemented by
the POST / PATCH handlers of `src/app/api/events/route.ts`, persisting rows
of the Prisma `Event` model.  The handlers are embedded shallowly:

* the `Event` row type mirrors the Prisma model (the DB-managed `createdAt`
  audit column, never read or written by the handlers, is omitted);
* the store is a list of rows plus a counter generating fresh synthetic ids
  (standing for Prisma's cuid generation and the `@id` primary key);
* `prisma.event.findFirst{where device/type/active, orderBy timestamp desc}`
  is embedded as selecting a row of maximal `timestamp` among the matching
  ones;
* `prisma.event.update{where id}` maps the update over the rows with that
  id, or fails (the thrown "record not found" error, caught by the
  handler's catch-all) when no row has the id;
* authentication is modelled as granted: the claims under study concern the
  body validation and the tracker logic that run after the auth check.

Numeric JSON values (`value`, `threshold`), epoch-millisecond instants and
the BigInt `duration` are embedded as `Int`; the handlers only copy and
compare them.
-/

/-- The Prisma `EventType` enum. -/
inductive EventType where
  | HIGH_CURRENT
  | LOW_PRESSURE
  | LOW_TEMPERATURE
  | SENSOR_ERROR
  | SYSTEM_ERROR
  | MISSING_DATA
deriving DecidableEq

/-- One row of the Prisma `Event` model ("Incident" in the spec). -/
structure Event where
  id : Nat
  device : String
  location : String
  timestamp : Int
  ty : EventType
  value : Int
  threshold : Int
  startTime : Int
  duration : Int
  active : Bool
  description : String
  acknowledged : Bool
  acknowledgedBy : Option String
  acknowledgedAt : Option Int
deriving DecidableEq

/-- The persistent store: the `events` table plus the id generator. -/
structure Store where
  events : List Event
  nextId : Nat
deriving DecidableEq

def emptyStore : Store := ⟨[], 0⟩

/-- A validated report, as built by POST after field validation:
`timestamp`/`startTime` parsed to instants, the integer type code mapped to
the enum. -/
structure Report where
  device : String
  location : String
  timestamp : Int
  ty : EventType
  value : Int
  threshold : Int
  startTime : Int
  duration : Int
  active : Bool
  description : String
deriving DecidableEq

/-- The raw JSON body of a POST request; `none` is an absent field.
`timestamp`/`startTime` arrive as epoch-millisecond strings, embedded here
already as the integers `parseInt` yields. -/
structure RawBody where
  device : Option String
  location : Option String
  timestamp : Option Int
  ty : Option Int
  value : Option Int
  threshold : Option Int
  startTime : Option Int
  duration : Option Int
  active : Option Bool
  description : Option String

/-- The `eventTypeMap` of the POST handler: integer codes 1..5. -/
def eventTypeMap : Int → Option EventType := fun c =>
  if c = 1 then some .HIGH_CURRENT
  else if c = 2 then some .LOW_PRESSURE
  else if c = 3 then some .LOW_TEMPERATURE
  else if c = 4 then some .SENSOR_ERROR
  else if c = 5 then some .SYSTEM_ERROR
  else none

/-- The POST handler's validation: the `requiredFields` presence loop, in
source order, then the event-type mapping.  Returns the validated report
or the 400 error message. -/
def validate (b : RawBody) : Except String Report :=
  match b.device with
  | none => .error "Missing required field: device"
  | some device =>
  match b.location with
  | none => .error "Missing required field: location"
  | some location =>
  match b.timestamp with
  | none => .error "Missing required field: timestamp"
  | some timestamp =>
  match b.ty with
  | none => .error "Missing required field: type"
  | some tyCode =>
  match b.value with
  | none => .error "Missing required field: value"
  | some value =>
  match b.threshold with
  | none => .error "Missing required field: threshold"
  | some threshold =>
  match b.startTime with
  | none => .error "Missing required field: startTime"
  | some startTime =>
  match b.duration with
  | none => .error "Missing required field: duration"
  | some duration =>
  match b.active with
  | none => .error "Missing required field: active"
  | some active =>
  match b.description with
  | none => .error "Missing required field: description"
  | some description =>
  match eventTypeMap tyCode with
  | none => .error ("Invalid event type: " ++ toString tyCode)
  | some ty =>
    .ok { device := device, location := location, timestamp := timestamp,
          ty := ty, value := value, threshold := threshold,
          startTime := startTime, duration := duration, active := active,
          description := description }

/-- Does a row match `findFirst{where device, type, active: true}`? -/
def isOpenFor (d : String) (t : EventType) (e : Event) : Bool :=
  e.device == d && e.ty == t && e.active

/-- Among a list of rows, the one `findFirst{orderBy timestamp desc}`
returns: a row of maximal `timestamp` (`none` on the empty list). -/
def pickLatest : List Event → Option Event
  | [] => none
  | e :: es =>
    match pickLatest es with
    | none => some e
    | some b => if e.timestamp < b.timestamp then some b else some e

/-- The `findFirst` call of the POST handler: the most recently touched
open incident for the key. -/
def openIncident (s : Store) (d : String) (t : EventType) : Option Event :=
  pickLatest (s.events.filter (isOpenFor d t))

/-- Number of open incidents stored for a key. -/
def activeCount (s : Store) (d : String) (t : EventType) : Nat :=
  s.events.countP (isOpenFor d t)

/-- `prisma.event.update{where id}` applied to every row carrying the id
(the primary key makes it unique in a well-formed store). -/
def applyUpdate (s : Store) (i : Nat) (f : Event → Event) : Store :=
  { s with events := s.events.map fun e => if e.id == i then f e else e }

/-- The JSON responses of the POST handler, with their payload. -/
inductive PostResponse where
  | badRequest : String → PostResponse
  | created : Nat → PostResponse
  | updated : Nat → PostResponse
  | resolved : Nat → PostResponse
  | noOpClear : PostResponse
deriving DecidableEq

/-- HTTP status of each POST response. -/
def postStatus : PostResponse → Nat
  | .badRequest _ => 400
  | .created _ => 201
  | .updated _ => 200
  | .resolved _ => 200
  | .noOpClear => 200

/-- The `message` field of each POST response body. -/
def postMessage : PostResponse → String
  | .badRequest e => e
  | .created _ => "Event created"
  | .updated _ => "Existing event updated"
  | .resolved _ => "Event resolved"
  | .noOpClear => "No active event to resolve"

/-- The update data of the "existing event" branch: refresh `timestamp`,
`value`, `duration`, `description`. -/
def refreshWith (r : Report) (e : Event) : Event :=
  { e with timestamp := r.timestamp, value := r.value,
           duration := r.duration, description := r.description }

/-- The update data of the resolution branch: `active := false`, refresh
`timestamp` and `duration`. -/
def resolveWith (r : Report) (e : Event) : Event :=
  { e with active := false, timestamp := r.timestamp, duration := r.duration }

/-- The row built by the `prisma.event.create` call, with the generated id. -/
def newEventFor (s : Store) (r : Report) : Event :=
  { id := s.nextId, device := r.device, location := r.location,
    timestamp := r.timestamp, ty := r.ty, value := r.value,
    threshold := r.threshold, startTime := r.startTime,
    duration := r.duration, active := true, description := r.description,
    acknowledged := false, acknowledgedBy := none, acknowledgedAt := none }

/-- The write half of the POST handler: the branching on `isActive` and on
the already fetched `existingEvent`, exactly as in the source. -/
def writePhase (s : Store) (r : Report) (existingEvent : Option Event) :
    Store × PostResponse :=
  if r.active then
    match existingEvent with
    | some ex => (applyUpdate s ex.id (refreshWith r), .updated ex.id)
    | none =>
      ({ events := s.events ++ [newEventFor s r], nextId := s.nextId + 1 },
       .created s.nextId)
  else
    match existingEvent with
    | some ex => (applyUpdate s ex.id (resolveWith r), .resolved ex.id)
    | none => (s, .noOpClear)

/-- The tracker logic of the POST handler on a validated report: one
`findFirst` for the key, then the create/update/resolve branching. -/
def submit (s : Store) (r : Report) : Store × PostResponse :=
  writePhase s r (openIncident s r.device r.ty)

/-- The POST handler after the auth check: validation, then the tracker. -/
def POST (s : Store) (b : RawBody) : Store × PostResponse :=
  match validate b with
  | .error e => (s, .badRequest e)
  | .ok r => submit s r

/-- A sequence of POST calls processed sequentially. -/
def processAll (s : Store) (bs : List RawBody) : Store :=
  bs.foldl (fun s b => (POST s b).1) s

/-- The JSON responses of the PATCH handler. -/
inductive PatchResponse where
  | badRequest : String → PatchResponse
  | ok : String → PatchResponse
  | serverError : PatchResponse
deriving DecidableEq

/-- HTTP status of each PATCH response (`serverError` is the catch-all
500 produced when `prisma.event.update` throws on a missing id). -/
def patchStatus : PatchResponse → Nat
  | .badRequest _ => 400
  | .ok _ => 200
  | .serverError => 500

/-- `prisma.event.update{where id}` as used by PATCH: fails (throws) when
no row has the id. -/
def updateById (s : Store) (i : Nat) (f : Event → Event) : Option Store :=
  if s.events.any (fun e => e.id == i) then
    some { s with events := s.events.map fun e => if e.id == i then f e else e }
  else none

/-- The PATCH handler: query parameters `id` and `action`, current time
`now` (the `new Date()` of the acknowledge branch). -/
def PATCH (s : Store) (eventId : Option Nat) (action : Option String)
    (now : Int) : Store × PatchResponse :=
  match eventId with
  | none => (s, .badRequest "Event ID is required")
  | some i =>
    if action = some "acknowledge" then
      match updateById s i (fun e =>
          { e with acknowledged := true, acknowledgedAt := some now }) with
      | some s' => (s', .ok "Event acknowledged successfully")
      | none => (s, .serverError)
    else if action = some "resolve" then
      match updateById s i (fun e => { e with active := false }) with
      | some s' => (s', .ok "Event resolved successfully")
      | none => (s, .serverError)
    else
      (s, .badRequest "Invalid action")

/-- The model invariant: at most one open incident per (device, type) key. -/
def AtMostOneOpen (s : Store) : Prop :=
  ∀ d t, activeCount s d t ≤ 1

/-- Store well-formedness: ids are unique (the `@id` primary key). -/
def WF (s : Store) : Prop :=
  (s.events.map Event.id).Nodup

/-! ### Basic lemmas about the findFirst embedding -/

theorem pickLatest_cons_some (e : Event) (es : List Event) :
    ∃ x, pickLatest (e :: es) = some x := by
  simp only [pickLatest]
  cases pickLatest es with
  | none => exact ⟨e, rfl⟩
  | some b =>
    by_cases hlt : e.timestamp < b.timestamp
    · exact ⟨b, if_pos hlt⟩
    · exact ⟨e, if_neg hlt⟩

theorem pickLatest_eq_none {l : List Event} : pickLatest l = none ↔ l = [] := by
  cases l with
  | nil => simp [pickLatest]
  | cons e es =>
    constructor
    · intro hc
      obtain ⟨x, hx⟩ := pickLatest_cons_some e es
      rw [hx] at hc
      cases hc
    · intro hc
      cases hc

theorem pickLatest_mem {l : List Event} {e : Event}
    (h : pickLatest l = some e) : e ∈ l := by
  induction l with
  | nil => cases h
  | cons a as ih =>
    cases hp : pickLatest as with
    | none =>
      simp only [pickLatest, hp] at h
      injection h with h
      subst h
      exact List.mem_cons_self _ _
    | some b =>
      simp only [pickLatest, hp] at h
      by_cases hlt : a.timestamp < b.timestamp
      · rw [if_pos hlt] at h
        injection h with h
        subst h
        exact List.mem_cons_of_mem _ (ih hp)
      · rw [if_neg hlt] at h
        injection h with h
        subst h
        exact List.mem_cons_self _ _

theorem pickLatest_max : ∀ {l : List Event} {e : Event},
    pickLatest l = some e → ∀ x ∈ l, x.timestamp ≤ e.timestamp := by
  intro l
  induction l with
  | nil => intro e h; cases h
  | cons a as ih =>
    intro e h x hx
    cases hp : pickLatest as with
    | none =>
      have hnil : as = [] := pickLatest_eq_none.1 hp
      subst hnil
      simp only [pickLatest] at h
      injection h with h
      subst h
      rcases List.mem_cons.1 hx with rfl | hx'
      · exact le_refl _
      · cases hx'
    | some b =>
      simp only [pickLatest, hp] at h
      by_cases hlt : a.timestamp < b.timestamp
      · rw [if_pos hlt] at h
        injection h with h
        subst h
        rcases List.mem_cons.1 hx with rfl | hx'
        · exact le_of_lt hlt
        · exact ih hp x hx'
      · rw [if_neg hlt] at h
        injection h with h
        subst h
        rcases List.mem_cons.1 hx with rfl | hx'
        · exact le_refl _
        · exact le_trans (ih hp x hx') (le_of_not_lt hlt)

theorem openIncident_none_iff {s : Store} {d : String} {t : EventType} :
    openIncident s d t = none ↔ activeCount s d t = 0 := by
  rw [openIncident, activeCount, pickLatest_eq_none,
    List.countP_eq_length_filter, List.length_eq_zero]

theorem openIncident_mem {s : Store} {d : String} {t : EventType} {e : Event}
    (h : openIncident s d t = some e) :
    e ∈ s.events ∧ isOpenFor d t e = true := by
  have := pickLatest_mem h
  exact List.mem_filter.1 this

theorem openIncident_max {s : Store} {d : String} {t : EventType} {e : Event}
    (h : openIncident s d t = some e) :
    ∀ x ∈ s.events, isOpenFor d t x = true → x.timestamp ≤ e.timestamp := by
  intro x hx hopen
  exact pickLatest_max h x (List.mem_filter.2 ⟨hx, hopen⟩)

theorem openIncident_some_of_pos {s : Store} {d : String} {t : EventType}
    (h : 0 < activeCount s d t) : ∃ e, openIncident s d t = some e := by
  cases hp : openIncident s d t with
  | none => rw [openIncident_none_iff.1 hp] at h; cases h
  | some e => exact ⟨e, rfl⟩

/-! ### Counting lemmas for the three mutations -/

theorem activeCount_applyUpdate_le {s : Store} {i : Nat} {f : Event → Event}
    {d : String} {t : EventType}
    (hf : ∀ e, isOpenFor d t (f e) = true → isOpenFor d t e = true) :
    activeCount (applyUpdate s i f) d t ≤ activeCount s d t := by
  rw [activeCount, applyUpdate, List.countP_map]
  apply List.countP_mono_left
  intro x _ hpx
  simp only [Function.comp] at hpx
  by_cases hid : x.id == i
  · rw [if_pos hid] at hpx; exact hf x hpx
  · rw [if_neg hid] at hpx; exact hpx

theorem activeCount_applyUpdate_eq {s : Store} {i : Nat} {f : Event → Event}
    {d : String} {t : EventType}
    (hf : ∀ e, isOpenFor d t (f e) = isOpenFor d t e) :
    activeCount (applyUpdate s i f) d t = activeCount s d t := by
  rw [activeCount, applyUpdate, List.countP_map]
  apply Nat.le_antisymm
  · apply List.countP_mono_left
    intro x _ hpx
    simp only [Function.comp] at hpx
    by_cases hid : x.id == i
    · rw [if_pos hid, hf] at hpx; exact hpx
    · rw [if_neg hid] at hpx; exact hpx
  · apply List.countP_mono_left
    intro x _ hpx
    simp only [Function.comp]
    by_cases hid : x.id == i
    · rw [if_pos hid, hf]; exact hpx
    · rw [if_neg hid]; exact hpx

theorem isOpenFor_refreshWith (d : String) (t : EventType) (r : Report)
    (e : Event) : isOpenFor d t (refreshWith r e) = isOpenFor d t e := by
  simp [isOpenFor, refreshWith]

theorem isOpenFor_resolveWith (d : String) (t : EventType) (r : Report)
    (e : Event) : isOpenFor d t (resolveWith r e) = false := by
  simp [isOpenFor, resolveWith]

theorem isOpenFor_newEventFor (d : String) (t : EventType) (s : Store)
    (r : Report) :
    isOpenFor d t (newEventFor s r) = (r.device == d && r.ty == t) := by
  simp [isOpenFor, newEventFor]

/-! ### The four branches of submit -/

theorem submit_found_active {s : Store} {r : Report} {ex : Event}
    (hfind : openIncident s r.device r.ty = some ex) (hact : r.active = true) :
    submit s r = (applyUpdate s ex.id (refreshWith r), .updated ex.id) := by
  rw [submit, hfind, writePhase, hact]
  simp

theorem submit_found_inactive {s : Store} {r : Report} {ex : Event}
    (hfind : openIncident s r.device r.ty = some ex)
    (hact : r.active = false) :
    submit s r = (applyUpdate s ex.id (resolveWith r), .resolved ex.id) := by
  rw [submit, hfind, writePhase, hact]
  simp

theorem submit_none_active {s : Store} {r : Report}
    (hfind : openIncident s r.device r.ty = none) (hact : r.active = true) :
    submit s r =
      ({ events := s.events ++ [newEventFor s r], nextId := s.nextId + 1 },
       .created s.nextId) := by
  rw [submit, hfind, writePhase, hact]
  simp

theorem submit_none_inactive {s : Store} {r : Report}
    (hfind : openIncident s r.device r.ty = none) (hact : r.active = false) :
    submit s r = (s, .noOpClear) := by
  rw [submit, hfind, writePhase, hact]
  simp

/-! ### Preservation of the at-most-one-open invariant -/

theorem submit_preserves_atMostOneOpen (s : Store) (r : Report)
    (h : AtMostOneOpen s) : AtMostOneOpen (submit s r).1 := by
  intro d t
  cases hfind : openIncident s r.device r.ty with
  | some ex =>
    cases hact : r.active with
    | true =>
      rw [submit_found_active hfind hact]
      rw [activeCount_applyUpdate_eq (fun e => isOpenFor_refreshWith d t r e)]
      exact h d t
    | false =>
      rw [submit_found_inactive hfind hact]
      refine le_trans (activeCount_applyUpdate_le ?_) (h d t)
      intro e he
      rw [isOpenFor_resolveWith] at he
      cases he
  | none =>
    cases hact : r.active with
    | true =>
      rw [submit_none_active hfind hact]
      simp only [activeCount, List.countP_append]
      by_cases hk : isOpenFor d t (newEventFor s r) = true
      · have hdt : r.device = d ∧ r.ty = t := by
          rw [isOpenFor_newEventFor] at hk
          simpa using hk
        obtain ⟨hd, ht⟩ := hdt
        subst hd
        subst ht
        have h0 : activeCount s r.device r.ty = 0 := openIncident_none_iff.1 hfind
        rw [activeCount] at h0
        rw [h0]
        simp [List.countP_cons, hk]
      · have hk' : isOpenFor d t (newEventFor s r) = false :=
          Bool.eq_false_iff.2 hk
        simp only [List.countP_cons, List.countP_nil, hk']
        simpa using h d t
    | false =>
      rw [submit_none_inactive hfind hact]
      exact h d t

theorem POST_preserves_atMostOneOpen (s : Store) (b : RawBody)
    (h : AtMostOneOpen s) : AtMostOneOpen (POST s b).1 := by
  cases hv : validate b with
  | error e =>
    simp only [POST, hv]
    exact h
  | ok r =>
    simp only [POST, hv]
    exact submit_preserves_atMostOneOpen s r h

theorem atMostOneOpen_empty : AtMostOneOpen emptyStore := by
  intro d t
  simp [activeCount, emptyStore]

/-- A sample raw body, used by the concrete witnesses. -/
def sampleBody (active : Bool) : RawBody :=
  { device := some "pump-1", location := some "Pump House",
    timestamp := some 200, ty := some 1, value := some 9,
    threshold := some 7, startTime := some 100, duration := some 20000,
    active := some active, description := some "High current" }

/-- C1: processing any sequence of POST calls sequentially from a store
satisfying the at-most-one-open-incident invariant leaves the invariant
intact after each call: the active branch updates the found open incident
in place or creates one row only when none was found, and the inactive
branch only clears. -/
theorem C1_sequential_posts_preserve_at_most_one_open
    (s : Store) (bs : List RawBody) (h : AtMostOneOpen s) :
    AtMostOneOpen (processAll s bs) := by
  induction bs generalizing s with
  | nil => exact h
  | cons b bs ih => exact ih _ (POST_preserves_atMostOneOpen s b h)

theorem C1_sequential_posts_preserve_at_most_one_open_witness :
    AtMostOneOpen emptyStore ∧
      AtMostOneOpen (processAll emptyStore
        [sampleBody true, sampleBody true, sampleBody false]) :=
  ⟨atMostOneOpen_empty,
   C1_sequential_posts_preserve_at_most_one_open emptyStore
     [sampleBody true, sampleBody true, sampleBody false] atMostOneOpen_empty⟩

/-! ### Row-level lemmas about update-by-id -/

theorem openIncident_some_pos {s : Store} {d : String} {t : EventType}
    {e : Event} (h : openIncident s d t = some e) : 0 < activeCount s d t := by
  obtain ⟨hm, ho⟩ := openIncident_mem h
  exact List.countP_pos_iff.2 ⟨e, hm, ho⟩

theorem applyUpdate_length (s : Store) (i : Nat) (f : Event → Event) :
    (applyUpdate s i f).events.length = s.events.length :=
  List.length_map _ _

theorem applyUpdate_mem_of_id {s : Store} {f : Event → Event} {ex : Event}
    (hwf : WF s) (hex : ex ∈ s.events) :
    ∀ x ∈ (applyUpdate s ex.id f).events, x.id = ex.id →
      (∀ e, (f e).id = e.id) → x = f ex := by
  intro x hx hxid hf
  obtain ⟨y, hy, hxy⟩ := List.mem_map.1 hx
  by_cases hyid : y.id = ex.id
  · have hyex : y = ex := List.inj_on_of_nodup_map hwf hy hex hyid
    subst hyex
    rw [if_pos (by simp)] at hxy
    exact hxy.symm
  · rw [if_neg (by simpa using hyid)] at hxy
    subst hxy
    exact absurd hxid hyid

theorem applyUpdate_mem_of_ne {s : Store} {i : Nat} {f : Event → Event} :
    ∀ x ∈ s.events, x.id ≠ i → x ∈ (applyUpdate s i f).events := by
  intro x hx hne
  exact List.mem_map.2 ⟨x, hx, by rw [if_neg (by simpa using hne)]⟩

theorem atMostOneOpen_of_length_le_one (s : Store)
    (h : s.events.length ≤ 1) : AtMostOneOpen s :=
  fun _ _ => le_trans (List.countP_le_length _) h

/-! ### Sample data for the concrete witnesses -/

def ev1 : Event :=
  { id := 0, device := "pump-1", location := "Pump House", timestamp := 100,
    ty := .HIGH_CURRENT, value := 8, threshold := 7, startTime := 100,
    duration := 0, active := true, description := "High current",
    acknowledged := false, acknowledgedBy := none, acknowledgedAt := none }

def store1 : Store := ⟨[ev1], 1⟩

/-- A refreshing report for the key of `ev1`, with a different location and
threshold. -/
def rpt2 : Report :=
  { device := "pump-1", location := "Shed", timestamp := 120,
    ty := .HIGH_CURRENT, value := 9, threshold := 8, startTime := 110,
    duration := 20000, active := true, description := "still high" }

/-- A clearing report for the key of `ev1`. -/
def rpt3 : Report :=
  { device := "pump-1", location := "Pump House", timestamp := 145,
    ty := .HIGH_CURRENT, value := 5, threshold := 7, startTime := 100,
    duration := 45000, active := false, description := "cleared" }

/-- C3: an active=true report arriving while an open incident exists for
its key updates that row in place: the response is Updated (HTTP 200) with
the same id, the row's `timestamp`, `value`, `duration`, `description` are
refreshed from the report while `id` and `startTime` are untouched, no row
is created, and exactly one open incident remains for the key. -/
theorem C3_active_report_merges_into_open_incident
    (s : Store) (r : Report) (ex : Event)
    (hwf : WF s) (hinv : AtMostOneOpen s) (hact : r.active = true)
    (hfind : openIncident s r.device r.ty = some ex) :
    (submit s r).2 = .updated ex.id ∧
    postStatus (submit s r).2 = 200 ∧
    (submit s r).1.events.length = s.events.length ∧
    (∀ x ∈ (submit s r).1.events, x.id = ex.id →
      x.startTime = ex.startTime ∧ x.timestamp = r.timestamp ∧
      x.value = r.value ∧ x.duration = r.duration ∧
      x.description = r.description) ∧
    activeCount (submit s r).1 r.device r.ty = 1 := by
  have hsub := submit_found_active hfind hact
  obtain ⟨hex_mem, _⟩ := openIncident_mem hfind
  refine ⟨by rw [hsub], by rw [hsub, postStatus], ?_, ?_, ?_⟩
  · rw [hsub]
    exact applyUpdate_length s ex.id (refreshWith r)
  · intro x hx hxid
    rw [hsub] at hx
    have hxeq : x = refreshWith r ex :=
      applyUpdate_mem_of_id hwf hex_mem x hx hxid (fun e => rfl)
    subst hxeq
    simp [refreshWith]
  · rw [hsub]
    rw [activeCount_applyUpdate_eq (fun e => isOpenFor_refreshWith _ _ r e)]
    exact Nat.le_antisymm (hinv r.device r.ty) (openIncident_some_pos hfind)

theorem C3_active_report_merges_into_open_incident_witness :
    (submit store1 rpt2).2 = .updated ev1.id ∧
    postStatus (submit store1 rpt2).2 = 200 ∧
    (submit store1 rpt2).1.events.length = store1.events.length ∧
    (∀ x ∈ (submit store1 rpt2).1.events, x.id = ev1.id →
      x.startTime = ev1.startTime ∧ x.timestamp = rpt2.timestamp ∧
      x.value = rpt2.value ∧ x.duration = rpt2.duration ∧
      x.description = rpt2.description) ∧
    activeCount (submit store1 rpt2).1 rpt2.device rpt2.ty = 1 :=
  C3_active_report_merges_into_open_incident store1 rpt2 ev1
    (by unfold WF; decide)
    (atMostOneOpen_of_length_le_one store1 (by decide))
    rfl (by decide)

/-- C4: an active=false report arriving while an open incident exists for
its key resolves exactly that row: the response is Resolved (HTTP 200),
the row gets `active = false`, `timestamp = report.timestamp` and
`duration = report.duration`, and every other field — id, device,
location, type, value, threshold, startTime, description, acknowledged,
acknowledgedAt, acknowledgedBy — is unchanged; rows with other ids are
kept exactly as they were. -/
theorem C4_clear_resolves_and_preserves_frame
    (s : Store) (r : Report) (ex : Event)
    (hwf : WF s) (hact : r.active = false)
    (hfind : openIncident s r.device r.ty = some ex) :
    (submit s r).2 = .resolved ex.id ∧
    postStatus (submit s r).2 = 200 ∧
    (submit s r).1.events.length = s.events.length ∧
    (∀ x ∈ (submit s r).1.events, x.id = ex.id →
      x.active = false ∧ x.timestamp = r.timestamp ∧
      x.duration = r.duration ∧ x.id = ex.id ∧ x.device = ex.device ∧
      x.location = ex.location ∧ x.ty = ex.ty ∧ x.value = ex.value ∧
      x.threshold = ex.threshold ∧ x.startTime = ex.startTime ∧
      x.description = ex.description ∧ x.acknowledged = ex.acknowledged ∧
      x.acknowledgedAt = ex.acknowledgedAt ∧
      x.acknowledgedBy = ex.acknowledgedBy) ∧
    (∀ x ∈ s.events, x.id ≠ ex.id → x ∈ (submit s r).1.events) := by
  have hsub := submit_found_inactive hfind hact
  obtain ⟨hex_mem, _⟩ := openIncident_mem hfind
  refine ⟨by rw [hsub], by rw [hsub, postStatus], ?_, ?_, ?_⟩
  · rw [hsub]
    exact applyUpdate_length s ex.id (resolveWith r)
  · intro x hx hxid
    rw [hsub] at hx
    have hxeq : x = resolveWith r ex :=
      applyUpdate_mem_of_id hwf hex_mem x hx hxid (fun e => rfl)
    subst hxeq
    simp [resolveWith]
  · intro x hx hne
    rw [hsub]
    exact applyUpdate_mem_of_ne x hx hne

theorem C4_clear_resolves_and_preserves_frame_witness :
    (submit store1 rpt3).2 = .resolved ev1.id ∧
    postStatus (submit store1 rpt3).2 = 200 ∧
    (submit store1 rpt3).1.events.length = store1.events.length ∧
    (∀ x ∈ (submit store1 rpt3).1.events, x.id = ev1.id →
      x.active = false ∧ x.timestamp = rpt3.timestamp ∧
      x.duration = rpt3.duration ∧ x.id = ev1.id ∧ x.device = ev1.device ∧
      x.location = ev1.location ∧ x.ty = ev1.ty ∧ x.value = ev1.value ∧
      x.threshold = ev1.threshold ∧ x.startTime = ev1.startTime ∧
      x.description = ev1.description ∧ x.acknowledged = ev1.acknowledged ∧
      x.acknowledgedAt = ev1.acknowledgedAt ∧
      x.acknowledgedBy = ev1.acknowledgedBy) ∧
    (∀ x ∈ store1.events, x.id ≠ ev1.id → x ∈ (submit store1 rpt3).1.events) :=
  C4_clear_resolves_and_preserves_frame store1 rpt3 ev1
    (by unfold WF; decide) rfl (by decide)

/-- C5: an active=false report arriving with no open incident for its key
mutates nothing and yields NoOpClear, HTTP 200 with body message
"No active event to resolve"; repeating the same clear any number of times
leaves the store unchanged and yields the same outcome each time. -/
theorem C5_clear_without_open_incident_is_idempotent_noop
    (s : Store) (r : Report) (hact : r.active = false)
    (hfind : openIncident s r.device r.ty = none) :
    (submit s r).1 = s ∧
    (submit s r).2 = .noOpClear ∧
    postStatus (submit s r).2 = 200 ∧
    postMessage (submit s r).2 = "No active event to resolve" ∧
    (∀ n : Nat,
      (List.replicate n r).foldl (fun s' r' => (submit s' r').1) s = s ∧
      ∀ k : Nat,
        (submit ((List.replicate k r).foldl
          (fun s' r' => (submit s' r').1) s) r).2 = .noOpClear) := by
  have hsub := submit_none_inactive hfind hact
  refine ⟨by rw [hsub], by rw [hsub], by rw [hsub, postStatus],
    by rw [hsub, postMessage], ?_⟩
  have hstep : ∀ n : Nat,
      (List.replicate n r).foldl (fun s' r' => (submit s' r').1) s = s := by
    intro n
    induction n with
    | zero => rfl
    | succ m ih =>
      rw [List.replicate_succ, List.foldl_cons, hsub]
      exact ih
  intro n
  refine ⟨hstep n, ?_⟩
  intro k
  rw [hstep k, hsub]

theorem C5_clear_without_open_incident_is_idempotent_noop_witness :
    (submit emptyStore rpt3).1 = emptyStore ∧
    (submit emptyStore rpt3).2 = .noOpClear ∧
    postStatus (submit emptyStore rpt3).2 = 200 ∧
    postMessage (submit emptyStore rpt3).2 = "No active event to resolve" ∧
    (∀ n : Nat,
      (List.replicate n rpt3).foldl (fun s' r' => (submit s' r').1)
        emptyStore = emptyStore ∧
      ∀ k : Nat,
        (submit ((List.replicate k rpt3).foldl
          (fun s' r' => (submit s' r').1) emptyStore) rpt3).2 = .noOpClear) :=
  C5_clear_without_open_incident_is_idempotent_noop emptyStore rpt3
    rfl (by decide)

/-- C10: an active=true report that refreshes an existing open incident
does not touch the stored `location` and `threshold`: they keep the values
of the creating report even when the refreshing report differs; only a
newly created incident takes `location` and `threshold` from its report. -/
theorem C10_refresh_keeps_location_and_threshold
    (s : Store) (r : Report) (ex : Event)
    (hwf : WF s) (hact : r.active = true) :
    (openIncident s r.device r.ty = some ex →
      ∀ x ∈ (submit s r).1.events, x.id = ex.id →
        x.location = ex.location ∧ x.threshold = ex.threshold) ∧
    (openIncident s r.device r.ty = none →
      (submit s r).1.events = s.events ++ [newEventFor s r] ∧
      (newEventFor s r).location = r.location ∧
      (newEventFor s r).threshold = r.threshold) := by
  constructor
  · intro hfind x hx hxid
    have hsub := submit_found_active hfind hact
    obtain ⟨hex_mem, _⟩ := openIncident_mem hfind
    rw [hsub] at hx
    have hxeq : x = refreshWith r ex :=
      applyUpdate_mem_of_id hwf hex_mem x hx hxid (fun e => rfl)
    subst hxeq
    simp [refreshWith]
  · intro hfind
    rw [submit_none_active hfind hact]
    exact ⟨rfl, rfl, rfl⟩

theorem C10_refresh_keeps_location_and_threshold_witness :
    (openIncident store1 rpt2.device rpt2.ty = some ev1 →
      ∀ x ∈ (submit store1 rpt2).1.events, x.id = ev1.id →
        x.location = ev1.location ∧ x.threshold = ev1.threshold) ∧
    (openIncident store1 rpt2.device rpt2.ty = none →
      (submit store1 rpt2).1.events = store1.events ++ [newEventFor store1 rpt2] ∧
      (newEventFor store1 rpt2).location = rpt2.location ∧
      (newEventFor store1 rpt2).threshold = rpt2.threshold) :=
  C10_refresh_keeps_location_and_threshold store1 rpt2 ev1
    (by unfold WF; decide) rfl

/-- A second open incident for the key of `ev1`, with a later timestamp —
a store state violating the at-most-one-open invariant. -/
def ev2 : Event :=
  { id := 1, device := "pump-1", location := "Pump House", timestamp := 150,
    ty := .HIGH_CURRENT, value := 10, threshold := 7, startTime := 140,
    duration := 0, active := true, description := "High current again",
    acknowledged := false, acknowledgedBy := none, acknowledgedAt := none }

def store2 : Store := ⟨[ev1, ev2], 2⟩

/-- C9: when the store holds more than one open incident for a key, the
handler takes the row with the latest `timestamp` as the authoritative
open incident for its update-or-resolve decision and leaves all other
rows untouched — no deletion, merge, or deactivation of the extras. -/
theorem C9_latest_timestamp_is_authoritative_without_repair
    (s : Store) (r : Report)
    (hmulti : 1 < activeCount s r.device r.ty) :
    ∃ ex, openIncident s r.device r.ty = some ex ∧
      ex ∈ s.events ∧ isOpenFor r.device r.ty ex = true ∧
      (∀ x ∈ s.events, isOpenFor r.device r.ty x = true →
        x.timestamp ≤ ex.timestamp) ∧
      (submit s r).2 =
        (if r.active then PostResponse.updated ex.id
         else PostResponse.resolved ex.id) ∧
      (submit s r).1.events.length = s.events.length ∧
      (∀ x ∈ s.events, x.id ≠ ex.id → x ∈ (submit s r).1.events) := by
  obtain ⟨ex, hfind⟩ :=
    openIncident_some_of_pos (lt_trans Nat.zero_lt_one hmulti)
  obtain ⟨hmem, hopen⟩ := openIncident_mem hfind
  refine ⟨ex, hfind, hmem, hopen, openIncident_max hfind, ?_, ?_, ?_⟩
  · cases hact : r.active with
    | false =>
      rw [submit_found_inactive hfind hact]
      simp
    | true =>
      rw [submit_found_active hfind hact]
      simp
  · cases hact : r.active with
    | false =>
      rw [submit_found_inactive hfind hact]
      exact applyUpdate_length s ex.id (resolveWith r)
    | true =>
      rw [submit_found_active hfind hact]
      exact applyUpdate_length s ex.id (refreshWith r)
  · intro x hx hne
    cases hact : r.active with
    | false =>
      rw [submit_found_inactive hfind hact]
      exact applyUpdate_mem_of_ne x hx hne
    | true =>
      rw [submit_found_active hfind hact]
      exact applyUpdate_mem_of_ne x hx hne

theorem C9_latest_timestamp_is_authoritative_without_repair_witness :
    ∃ ex, openIncident store2 rpt2.device rpt2.ty = some ex ∧
      ex ∈ store2.events ∧ isOpenFor rpt2.device rpt2.ty ex = true ∧
      (∀ x ∈ store2.events, isOpenFor rpt2.device rpt2.ty x = true →
        x.timestamp ≤ ex.timestamp) ∧
      (submit store2 rpt2).2 =
        (if rpt2.active then PostResponse.updated ex.id
         else PostResponse.resolved ex.id) ∧
      (submit store2 rpt2).1.events.length = store2.events.length ∧
      (∀ x ∈ store2.events, x.id ≠ ex.id → x ∈ (submit store2 rpt2).1.events) :=
  C9_latest_timestamp_is_authoritative_without_repair store2 rpt2 (by decide)

/-! ### Concurrency: the read and write of submit as separate steps -/

theorem writePhase_none_active (s : Store) (r : Report)
    (hact : r.active = true) :
    writePhase s r none =
      ({ events := s.events ++ [newEventFor s r], nextId := s.nextId + 1 },
       .created s.nextId) := by
  rw [writePhase, hact]
  simp

theorem activeCount_create (s : Store) (r : Report) :
    activeCount
        (Store.mk (s.events ++ [newEventFor s r]) (s.nextId + 1))
        r.device r.ty =
      activeCount s r.device r.ty + 1 := by
  simp [activeCount, List.countP_append, List.countP_cons,
    isOpenFor_newEventFor]

theorem submit_empty_active (r : Report) (hact : r.active = true) :
    (submit emptyStore r).1.events.length = 1 ∧
    activeCount (submit emptyStore r).1 r.device r.ty = 1 := by
  have hfind : openIncident emptyStore r.device r.ty = none := rfl
  rw [submit_none_active hfind hact]
  refine ⟨by simp [emptyStore], ?_⟩
  rw [activeCount_create]
  simp [activeCount, emptyStore]

theorem serial_active_preserves_single (r : Report) (hact : r.active = true) :
    ∀ (m : Nat) (s : Store), s.events.length = 1 →
      activeCount s r.device r.ty = 1 →
      (((List.replicate m r).foldl (fun s' r' => (submit s' r').1) s).events.length = 1 ∧
       activeCount ((List.replicate m r).foldl
         (fun s' r' => (submit s' r').1) s) r.device r.ty = 1) := by
  intro m
  induction m with
  | zero => intro s h1 h2; exact ⟨h1, h2⟩
  | succ k ih =>
    intro s h1 h2
    rw [List.replicate_succ, List.foldl_cons]
    obtain ⟨ex, hfind⟩ :=
      openIncident_some_of_pos (s := s) (d := r.device) (t := r.ty)
        (by rw [h2]; exact Nat.zero_lt_one)
    have hsub := submit_found_active hfind hact
    apply ih
    · rw [hsub, applyUpdate_length]
      exact h1
    · rw [hsub,
        activeCount_applyUpdate_eq (fun e => isOpenFor_refreshWith _ _ r e), h2]

/-- C2 counterexample: the lookup and the mutation of one submit are two
separate storage operations with no transaction around them, so the code
admits the schedule read-read-write-write: from an empty store, two
active=true submissions for the same key that both run their `findFirst`
before either write observe no open incident, and their two `create` calls
leave TWO open incidents for the key — not the exactly-one row the claim
asserts. -/
theorem C2_interleaved_reads_create_duplicate_open_incidents :
    openIncident emptyStore rpt2.device rpt2.ty = none ∧
    activeCount
      ((writePhase
          ((writePhase emptyStore rpt2
              (openIncident emptyStore rpt2.device rpt2.ty)).1)
          rpt2
          (openIncident emptyStore rpt2.device rpt2.ty)).1)
      rpt2.device rpt2.ty = 2 := by decide

/-- C2 as amended: the read and the write are not one atomic unit.  When
the calls for a key are serialized (each submit's read immediately
followed by its write), N active=true submissions from the empty store
leave exactly one Incident row; but under the interleaved schedule in
which both reads precede both writes, two submissions add two open
incidents to any store with no open incident for the key. -/
theorem C2_serialized_submits_yield_one_row_interleaved_two
    (r : Report) (n : Nat) (hact : r.active = true) (hn : 1 ≤ n) :
    (((List.replicate n r).foldl (fun s' r' => (submit s' r').1)
        emptyStore).events.length = 1 ∧
     activeCount ((List.replicate n r).foldl (fun s' r' => (submit s' r').1)
        emptyStore) r.device r.ty = 1) ∧
    (∀ s : Store, openIncident s r.device r.ty = none →
      activeCount ((writePhase ((writePhase s r none).1) r none).1)
        r.device r.ty = 2) := by
  constructor
  · obtain ⟨m, rfl⟩ : ∃ m, n = m + 1 :=
      ⟨n - 1, (Nat.succ_pred_eq_of_pos hn).symm⟩
    rw [List.replicate_succ, List.foldl_cons]
    obtain ⟨h1, h2⟩ := submit_empty_active r hact
    exact serial_active_preserves_single r hact m _ h1 h2
  · intro s hfind
    rw [writePhase_none_active s r hact]
    rw [writePhase_none_active _ r hact]
    rw [activeCount_create, activeCount_create]
    rw [openIncident_none_iff.1 hfind]

theorem C2_serialized_submits_yield_one_row_interleaved_two_witness :
    (((List.replicate 2 rpt2).foldl (fun s' r' => (submit s' r').1)
        emptyStore).events.length = 1 ∧
     activeCount ((List.replicate 2 rpt2).foldl
        (fun s' r' => (submit s' r').1) emptyStore) rpt2.device rpt2.ty = 1) ∧
    (∀ s : Store, openIncident s rpt2.device rpt2.ty = none →
      activeCount ((writePhase ((writePhase s rpt2 none).1) rpt2 none).1)
        rpt2.device rpt2.ty = 2) :=
  C2_serialized_submits_yield_one_row_interleaved_two rpt2 2 rfl
    (by decide)

/-! ### PATCH: acknowledge and manual resolve -/

theorem updateById_eq_some {s : Store} {i : Nat} {f : Event → Event}
    (hex : ∃ e ∈ s.events, e.id = i) :
    updateById s i f = some (applyUpdate s i f) := by
  obtain ⟨e, he, hid⟩ := hex
  rw [updateById, if_pos]
  · rfl
  · exact List.any_eq_true.2 ⟨e, he, by simp [hid]⟩

theorem updateById_eq_none {s : Store} {i : Nat} {f : Event → Event}
    (hnone : ∀ e ∈ s.events, e.id ≠ i) :
    updateById s i f = none := by
  rw [updateById, if_neg]
  intro hc
  obtain ⟨e, he, hid⟩ := List.any_eq_true.1 hc
  exact hnone e he (by simpa using hid)

theorem PATCH_ack_found (s : Store) (i : Nat) (now : Int)
    (hex : ∃ e ∈ s.events, e.id = i) :
    PATCH s (some i) (some "acknowledge") now =
      (applyUpdate s i
        (fun e => { e with acknowledged := true, acknowledgedAt := some now }),
       .ok "Event acknowledged successfully") := by
  simp [PATCH, updateById_eq_some hex]

theorem PATCH_ack_missing (s : Store) (i : Nat) (now : Int)
    (hnone : ∀ e ∈ s.events, e.id ≠ i) :
    PATCH s (some i) (some "acknowledge") now = (s, .serverError) := by
  simp [PATCH, updateById_eq_none hnone]

theorem PATCH_resolve_found (s : Store) (i : Nat) (now : Int)
    (hex : ∃ e ∈ s.events, e.id = i) :
    PATCH s (some i) (some "resolve") now =
      (applyUpdate s i (fun e => { e with active := false }),
       .ok "Event resolved successfully") := by
  simp [PATCH, updateById_eq_some hex]

theorem PATCH_resolve_missing (s : Store) (i : Nat) (now : Int)
    (hnone : ∀ e ∈ s.events, e.id ≠ i) :
    PATCH s (some i) (some "resolve") now = (s, .serverError) := by
  simp [PATCH, updateById_eq_none hnone]

/-- C6 counterexample: acknowledging the existing incident `ev1` (id 0)
succeeds, but the handler records no actor: the PATCH route takes no actor
parameter and its update sets only `acknowledged` and `acknowledgedAt`, so
`acknowledgedBy` stays `none` and in particular never becomes the actor
"alice" the claim says it is set to. -/
theorem C6_acknowledge_never_sets_acknowledgedBy :
    patchStatus (PATCH store1 (some 0) (some "acknowledge") 500).2 = 200 ∧
    (PATCH store1 (some 0) (some "acknowledge") 500).1.events =
      [{ ev1 with acknowledged := true, acknowledgedAt := some 500 }] ∧
    ({ ev1 with
        acknowledged := true,
        acknowledgedAt := some 500 } : Event).acknowledgedBy = none ∧
    ({ ev1 with
        acknowledged := true,
        acknowledgedAt := some 500 } : Event).acknowledgedBy ≠
      some "alice" := by decide

/-- C6 as amended: for every existing incident id, the acknowledge action
sets `acknowledged = true` and `acknowledgedAt` to the current time on
that row, regardless of whether the incident is active or inactive, and
changes nothing else — in particular it leaves `active` AND
`acknowledgedBy` unchanged: the code never records an actor. -/
theorem C6_acknowledge_sets_flag_and_time_only
    (s : Store) (e : Event) (i : Nat) (now : Int)
    (hwf : WF s) (he : e ∈ s.events) (hid : e.id = i) :
    patchStatus (PATCH s (some i) (some "acknowledge") now).2 = 200 ∧
    (PATCH s (some i) (some "acknowledge") now).1.events.length =
      s.events.length ∧
    (∀ x ∈ (PATCH s (some i) (some "acknowledge") now).1.events, x.id = i →
      x.acknowledged = true ∧ x.acknowledgedAt = some now ∧
      x.acknowledgedBy = e.acknowledgedBy ∧ x.active = e.active ∧
      x.device = e.device ∧ x.location = e.location ∧
      x.timestamp = e.timestamp ∧ x.ty = e.ty ∧ x.value = e.value ∧
      x.threshold = e.threshold ∧ x.startTime = e.startTime ∧
      x.duration = e.duration ∧ x.description = e.description) ∧
    (∀ x ∈ s.events, x.id ≠ i → x ∈ (PATCH s (some i) (some "acknowledge") now).1.events) := by
  have hpa := PATCH_ack_found s i now ⟨e, he, hid⟩
  subst hid
  refine ⟨by rw [hpa, patchStatus], ?_, ?_, ?_⟩
  · rw [hpa]
    exact applyUpdate_length s e.id _
  · intro x hx hxid
    rw [hpa] at hx
    have hxeq := applyUpdate_mem_of_id hwf he x hx hxid (fun y => rfl)
    subst hxeq
    simp
  · intro x hx hne
    rw [hpa]
    exact applyUpdate_mem_of_ne x hx hne

theorem C6_acknowledge_sets_flag_and_time_only_witness :
    patchStatus (PATCH store1 (some 0) (some "acknowledge") 500).2 = 200 ∧
    (PATCH store1 (some 0) (some "acknowledge") 500).1.events.length =
      store1.events.length ∧
    (∀ x ∈ (PATCH store1 (some 0) (some "acknowledge") 500).1.events, x.id = 0 →
      x.acknowledged = true ∧ x.acknowledgedAt = some 500 ∧
      x.acknowledgedBy = ev1.acknowledgedBy ∧ x.active = ev1.active ∧
      x.device = ev1.device ∧ x.location = ev1.location ∧
      x.timestamp = ev1.timestamp ∧ x.ty = ev1.ty ∧ x.value = ev1.value ∧
      x.threshold = ev1.threshold ∧ x.startTime = ev1.startTime ∧
      x.duration = ev1.duration ∧ x.description = ev1.description) ∧
    (∀ x ∈ store1.events, x.id ≠ 0 →
      x ∈ (PATCH store1 (some 0) (some "acknowledge") 500).1.events) :=
  C6_acknowledge_sets_flag_and_time_only store1 ev1 0 500
    (by unfold WF; decide) (by decide) rfl

/-- C7 counterexample: a PATCH on an id absent from storage (id 5 in the
empty store) is answered with HTTP 500 — the catch-all for the error
thrown by `prisma.event.update` — for both actions, not with the 404 the
claim asserts. -/
theorem C7_unknown_id_yields_500_not_404 :
    patchStatus (PATCH emptyStore (some 5) (some "acknowledge") 0).2 = 500 ∧
    patchStatus (PATCH emptyStore (some 5) (some "resolve") 0).2 = 500 ∧
    patchStatus (PATCH emptyStore (some 5) (some "acknowledge") 0).2 ≠ 404 ∧
    patchStatus (PATCH emptyStore (some 5) (some "resolve") 0).2 ≠ 404 := by
  decide

/-- C7 as amended: acknowledge and resolve via PATCH fail exactly when the
id does not exist in storage, but the failure is surfaced as HTTP 500
(the generic internal error produced when the storage update throws), not
404; when the id exists both actions succeed with HTTP 200. -/
theorem C7_patch_fails_on_unknown_id_with_500
    (s : Store) (i : Nat) (now : Int) :
    ((∀ e ∈ s.events, e.id ≠ i) →
      PATCH s (some i) (some "acknowledge") now = (s, .serverError) ∧
      PATCH s (some i) (some "resolve") now = (s, .serverError) ∧
      patchStatus (PATCH s (some i) (some "acknowledge") now).2 = 500 ∧
      patchStatus (PATCH s (some i) (some "resolve") now).2 = 500) ∧
    ((∃ e ∈ s.events, e.id = i) →
      patchStatus (PATCH s (some i) (some "acknowledge") now).2 = 200 ∧
      patchStatus (PATCH s (some i) (some "resolve") now).2 = 200) := by
  constructor
  · intro hnone
    have h1 := PATCH_ack_missing s i now hnone
    have h2 := PATCH_resolve_missing s i now hnone
    exact ⟨h1, h2, by rw [h1, patchStatus], by rw [h2, patchStatus]⟩
  · intro hex
    have h1 := PATCH_ack_found s i now hex
    have h2 := PATCH_resolve_found s i now hex
    exact ⟨by rw [h1, patchStatus], by rw [h2, patchStatus]⟩

theorem C7_patch_fails_on_unknown_id_with_500_witness :
    ((∀ e ∈ store1.events, e.id ≠ 0) →
      PATCH store1 (some 0) (some "acknowledge") 0 = (store1, .serverError) ∧
      PATCH store1 (some 0) (some "resolve") 0 = (store1, .serverError) ∧
      patchStatus (PATCH store1 (some 0) (some "acknowledge") 0).2 = 500 ∧
      patchStatus (PATCH store1 (some 0) (some "resolve") 0).2 = 500) ∧
    ((∃ e ∈ store1.events, e.id = 0) →
      patchStatus (PATCH store1 (some 0) (some "acknowledge") 0).2 = 200 ∧
      patchStatus (PATCH store1 (some 0) (some "resolve") 0).2 = 200) :=
  C7_patch_fails_on_unknown_id_with_500 store1 0 0

/-! ### POST validation -/

/-- Is some required field absent from the body? -/
def missingField (b : RawBody) : Bool :=
  b.device.isNone || b.location.isNone || b.timestamp.isNone ||
  b.ty.isNone || b.value.isNone || b.threshold.isNone ||
  b.startTime.isNone || b.duration.isNone || b.active.isNone ||
  b.description.isNone

/-- Is the type code present but not one of the recognized codes 1..5? -/
def badType (b : RawBody) : Bool :=
  match b.ty with
  | some c => (eventTypeMap c).isNone
  | none => false

def isBadRequest : PostResponse → Bool
  | .badRequest _ => true
  | _ => false

/-- The tracker itself never answers 400: every submit outcome is one of
Created, Updated, Resolved, NoOpClear. -/
theorem isBadRequest_submit (s : Store) (r : Report) :
    isBadRequest (submit s r).2 = false := by
  cases hfind : openIncident s r.device r.ty with
  | some ex =>
    cases hact : r.active with
    | true => rw [submit_found_active hfind hact]; rfl
    | false => rw [submit_found_inactive hfind hact]; rfl
  | none =>
    cases hact : r.active with
    | true => rw [submit_none_active hfind hact]; rfl
    | false => rw [submit_none_inactive hfind hact]; rfl

/-- C8 counterexample: a body whose required string field `device` is the
empty string is not rejected: validation checks only the presence of each
field (`field in data`) and the type code, never string emptiness, so the
report reaches the tracker and (on the empty store) creates a row with
HTTP 201 instead of the HTTP 400 the claim requires. -/
theorem C8_empty_device_is_not_rejected :
    (RawBody.mk (some "") (some "Pump House") (some 200) (some 1) (some 9)
      (some 7) (some 100) (some 20000) (some true)
      (some "High current")).device = some "" ∧
    postStatus (POST emptyStore
      (RawBody.mk (some "") (some "Pump House") (some 200) (some 1) (some 9)
        (some 7) (some 100) (some 20000) (some true)
        (some "High current"))).2 = 201 ∧
    postStatus (POST emptyStore
      (RawBody.mk (some "") (some "Pump House") (some 200) (some 1) (some 9)
        (some 7) (some 100) (some 20000) (some true)
        (some "High current"))).2 ≠ 400 := by decide

/-- C8 as amended: a POST body is rejected with HTTP 400 and an
`{error: ...}` payload, with the Incident store untouched, exactly when a
required field (device, location, timestamp, type, value, threshold,
startTime, duration, active, description) is missing or the type code is
not one of the recognized values 1..5; emptiness of string fields is NOT
checked.  Otherwise the validated report reaches the tracker logic. -/
theorem C8_validation_rejects_exactly_missing_field_or_bad_type
    (s : Store) (b : RawBody) :
    (isBadRequest (POST s b).2 = (missingField b || badType b)) ∧
    ((missingField b || badType b) = true →
      (POST s b).1 = s ∧ postStatus (POST s b).2 = 400) ∧
    ((missingField b || badType b) = false →
      ∃ r, validate b = .ok r ∧ POST s b = submit s r) := by
  obtain ⟨d, loc, ts, tyc, v, th, st, du, ac, de⟩ := b
  cases d with
  | none => simp [POST, validate, missingField, badType, isBadRequest, postStatus]
  | some d =>
  cases loc with
  | none => simp [POST, validate, missingField, badType, isBadRequest, postStatus]
  | some loc =>
  cases ts with
  | none => simp [POST, validate, missingField, badType, isBadRequest, postStatus]
  | some ts =>
  cases tyc with
  | none => simp [POST, validate, missingField, badType, isBadRequest, postStatus]
  | some tyc =>
  cases v with
  | none => simp [POST, validate, missingField, badType, isBadRequest, postStatus]
  | some v =>
  cases th with
  | none => simp [POST, validate, missingField, badType, isBadRequest, postStatus]
  | some th =>
  cases st with
  | none => simp [POST, validate, missingField, badType, isBadRequest, postStatus]
  | some st =>
  cases du with
  | none => simp [POST, validate, missingField, badType, isBadRequest, postStatus]
  | some du =>
  cases ac with
  | none => simp [POST, validate, missingField, badType, isBadRequest, postStatus]
  | some ac =>
  cases de with
  | none => simp [POST, validate, missingField, badType, isBadRequest, postStatus]
  | some de =>
  cases htc : eventTypeMap tyc with
  | none =>
    simp [POST, validate, missingField, badType, isBadRequest, postStatus, htc]
  | some t =>
    simp [POST, validate, missingField, badType, isBadRequest_submit, postStatus, htc]

theorem C8_validation_rejects_exactly_missing_field_or_bad_type_witness :
    (isBadRequest (POST emptyStore (sampleBody true)).2 =
      (missingField (sampleBody true) || badType (sampleBody true))) ∧
    ((missingField (sampleBody true) || badType (sampleBody true)) = true →
      (POST emptyStore (sampleBody true)).1 = emptyStore ∧
      postStatus (POST emptyStore (sampleBody true)).2 = 400) ∧
    ((missingField (sampleBody true) || badType (sampleBody true)) = false →
      ∃ r, validate (sampleBody true) = .ok r ∧
        POST emptyStore (sampleBody true) = submit emptyStore r) :=
  C8_validation_rejects_exactly_missing_field_or_bad_type emptyStore
    (sampleBody true)
